import Mathlib

/-!
Shallow embedding of the Complete_BHL request/response normalization and
fallback pipeline: `utils/rag_client.py` (RAGClient), `agents/edumentor_agent.py`
(EduMentorAgent) and `utils/vaani_client.py` (VaaniClient).

Python JSON values are modelled by `JVal`; Python dicts appearing as JSON
objects by association lists (`PyObj`).  External effects (the HTTP calls to
the RAG service, the Groq completion client, the Vaani service, the RL action
log sink, `uuid.uuid4()` and `datetime.now()`) are supplied by an explicit
environment record; a call that raises a Python exception is an
`Except.error msg` outcome in the environment.  All code paths of the source
are translated; Python truthiness, `dict.get` defaulting, `float(...)`
coercion and string slicing are modelled explicitly.
-/

namespace BHL

/-- Model of a Python/JSON value.  JSON integers and floats are kept separate
(as Python's `json` module does); floats are modelled by rationals, which is
faithful here because the code only passes scores through `float(...)` and
never does float arithmetic. -/
inductive JVal where
  | null
  | bool (b : Bool)
  | int (n : ℤ)
  | num (q : ℚ)
  | str (s : String)
  | arr (xs : List JVal)
  | obj (kvs : List (String × JVal))

/-- A Python dict with string keys, as an association list (first match wins,
mirroring unique-key JSON objects). -/
abbrev PyObj := List (String × JVal)

/-- `d.get(key)` returning `None` when absent: association-list lookup. -/
def olookup (kvs : PyObj) (k : String) : Option JVal :=
  (kvs.find? (fun p => p.1 == k)).map (fun p => p.2)

/-- `d.get(key, default)`. -/
def objGetD (kvs : PyObj) (k : String) (d : JVal) : JVal :=
  (olookup kvs k).getD d

/-- Python truthiness (`bool(v)`) on JSON-shaped values. -/
def pyTruthy : JVal → Bool
  | .null => false
  | .bool b => b
  | .int n => decide (n ≠ 0)
  | .num q => decide (q ≠ 0)
  | .str s => decide (s ≠ "")
  | .arr xs => !xs.isEmpty
  | .obj kvs => !kvs.isEmpty

/-- Python `str(v)` / f-string interpolation of a value.  Faithful for the
cases the code exercises (strings and integers); float, list and dict
renderings are abstract placeholders (the repository's payload fields
interpolated into f-strings are the string `file` and the integer `index`). -/
def pyStr : JVal → String
  | .null => "None"
  | .bool true => "True"
  | .bool false => "False"
  | .int n => toString n
  | .num q => toString q
  | .str s => s
  | .arr _ => "<list>"
  | .obj _ => "<dict>"

/-- Value of a digit string. -/
def digitsToNat (cs : List Char) : ℕ :=
  cs.foldl (fun a c => a * 10 + (c.toNat - 48)) 0

/-- Unsigned decimal forms accepted by Python `float(str)`: digits with an
optional fractional part ("7", "0.9", "1.", ".5").  Whitespace, exponents and
inf/nan forms, which Python also accepts, are omitted; they do not occur in
this repository's payloads and do not affect any claim. -/
def parseFloatCore (cs : List Char) : Option ℚ :=
  let ip := cs.takeWhile Char.isDigit
  let rest := cs.dropWhile Char.isDigit
  match rest with
  | [] => if ip.isEmpty then none else some (digitsToNat ip : ℚ)
  | '.' :: fr =>
      if fr.all Char.isDigit && (!ip.isEmpty || !fr.isEmpty) then
        some ((digitsToNat ip : ℚ) + (digitsToNat fr : ℚ) / ((10 : ℚ) ^ fr.length))
      else none
  | _ => none

/-- Python `float(s)` on a string, with an optional sign. -/
def pyFloatOfStr (s : String) : Option ℚ :=
  match s.data with
  | '-' :: rest => (parseFloatCore rest).map (fun q => -q)
  | '+' :: rest => parseFloatCore rest
  | cs => parseFloatCore cs

/-- Python `float(v)`: succeeds on numbers and bools and on numeric strings,
raises `ValueError` on non-numeric strings and `TypeError` on other types. -/
def pyFloat : JVal → Except String ℚ
  | .int n => .ok (n : ℚ)
  | .num q => .ok q
  | .bool b => .ok (if b then 1 else 0)
  | .str s =>
      match pyFloatOfStr s with
      | some q => .ok q
      | none => .error ("ValueError: could not convert string to float: " ++ s)
  | .null => .error "TypeError: float() argument must be a string or a real number, not NoneType"
  | .arr _ => .error "TypeError: float() argument must be a string or a real number, not list"
  | .obj _ => .error "TypeError: float() argument must be a string or a real number, not dict"

/-- Python string slicing `s[:n]` (by code points). -/
def pySlice (s : String) (n : ℕ) : String :=
  String.mk (s.data.take n)

/-- Python `str.lower()`: lower-case character by character.  `Char.toLower`
lowers ASCII letters, which is faithful for the ASCII keyword matching done
by the agent. -/
def pyLower (s : String) : String := String.mk (s.data.map Char.toLower)

/-- `needle` starts the list `hay`. -/
def startsWithList : List Char → List Char → Bool
  | [], _ => true
  | _ :: _, [] => false
  | a :: as, b :: bs => a == b && startsWithList as bs

/-- List containment of a contiguous run. -/
def containsList (needle : List Char) : List Char → Bool
  | [] => needle.isEmpty
  | hay@(_ :: rest) => startsWithList needle hay || containsList needle rest

/-- Python substring test `needle in hay`. -/
def pyIn (needle hay : String) : Bool :=
  containsList needle.data hay.data

/-- Sequential effectful map over `Except`, mirroring a Python `for` loop that
appends transformed items and aborts at the first exception. -/
def mapExcept (f : α → Except ε β) : List α → Except ε (List β)
  | [] => .ok []
  | x :: xs =>
      match f x with
      | .error e => .error e
      | .ok y =>
          match mapExcept f xs with
          | .error e => .error e
          | .ok ys => .ok (y :: ys)

/-! ## RAGClient (`utils/rag_client.py`) -/

/-- One transformed chunk of the internal retrieval format built by
`RAGClient._transform_response` / `_create_fallback_response`: keys
`content`, `source`, `score`, `metadata`, `document_id`, `folder`. -/
structure TChunk where
  content : JVal
  source : String
  score : ℚ
  metadata : PyObj
  document_id : String
  folder : String

/-- The dictionary returned by `RAGClient.query`: keys `response`,
`groq_answer`, `method`, `total_results`, `status`, `timestamp`, `query`,
`metadata`. -/
structure RagResponse where
  response : List TChunk
  groq_answer : JVal
  method : String
  total_results : ℕ
  status : ℤ
  timestamp : JVal
  query : String
  metadata : PyObj

/-- Outcome of an HTTP request that returned: status code and the result of
`.json()` (which itself can raise on an unparseable body). -/
structure HttpResp where
  status : ℤ
  jsonBody : Except String PyObj

/-- `RAGClient._transform_response` on one element of `retrieved_chunks`.
A non-dict chunk raises (`chunk.get` is an AttributeError); on a dict,
`float(chunk.get("score", 0.0))` is the only raising step, and the other
fields are `dict.get` with the source's defaults. -/
def transformChunk (c : JVal) : Except String TChunk :=
  match c with
  | .obj kvs =>
      match pyFloat (objGetD kvs "score" (.num 0)) with
      | .error e => .error e
      | .ok sc =>
          .ok ⟨objGetD kvs "content" (.str ""),
               "rag:" ++ pyStr (objGetD kvs "file" (.str "unknown")),
               sc,
               [("file", objGetD kvs "file" (.str "")),
                ("index", objGetD kvs "index" (.int 0)),
                ("rag_source", JVal.str "external_api")],
               pyStr (objGetD kvs "file" (.str "unknown")) ++ "_" ++
                 pyStr (objGetD kvs "index" (.int 0)),
               "rag_api"⟩
  | _ => .error "AttributeError: object has no attribute get"

/-- `RAGClient._transform_response`.  Iterating a non-list
`retrieved_chunks` value raises `TypeError`; each chunk is transformed in
upstream order. -/
def transformResponse (api : PyObj) (q : String) : Except String RagResponse :=
  let rc := objGetD api "retrieved_chunks" (.arr [])
  let ga := objGetD api "groq_answer" (.str "")
  match rc with
  | .arr chunks =>
      match mapExcept transformChunk chunks with
      | .error e => .error e
      | .ok ts =>
          .ok ⟨ts, ga, "rag_api", ts.length, 200,
               objGetD api "timestamp" (.str ""), q,
               [("tags", JVal.arr [JVal.str "semantic_search", JVal.str "rag_api",
                                   JVal.str "groq_enhanced"]),
                ("retriever", JVal.str "external_rag_api"),
                ("total_results", JVal.int (ts.length : ℤ)),
                ("has_groq_answer", JVal.bool (pyTruthy ga))]⟩
  | _ => .error "TypeError: object is not iterable"

/-- The single fragment of `RAGClient._create_fallback_response`. -/
def fallbackChunk (query : String) : TChunk :=
  ⟨JVal.str ("I apologize, but I'm currently unable to access the knowledge base. Your query was: '" ++ query ++ "'"),
   "fallback:error",
   (1 : ℚ) / 10,
   [("error", JVal.str "RAG API unavailable")],
   "fallback-001",
   "fallback"⟩

/-- `RAGClient._create_fallback_response` (the `top_k` parameter is accepted
and unused, as in the source). -/
def createFallbackResponse (query : String) (_top_k : ℕ) : RagResponse :=
  ⟨[fallbackChunk query],
   JVal.str ("I apologize, but I'm currently unable to access the knowledge base to provide a comprehensive answer to your query: '" ++ query ++ "'. Please try again later."),
   "fallback", 1, 503, JVal.str "", query,
   [("tags", JVal.arr [JVal.str "fallback", JVal.str "error"]),
    ("retriever", JVal.str "none"),
    ("total_results", JVal.int 1),
    ("error", JVal.str "RAG API unavailable")]⟩

/-- Environment of external effects for one `EduMentorAgent` call.
`ragHttp` is the outcome of `session.post` in `RAGClient.query` (an
`Except.error` models a raised exception, e.g. a timeout); `groqGen` the
outcome of `groq_client.generate_response` (text, succeeded); `groqHealth`
the outcome of `groq_client.health_check`; `logAction` the outcome of
`rl_context.log_action` (a fire-and-forget sink); `freshId` models
`str(uuid.uuid4())`; `now` models `datetime.now().isoformat()`; `apiUrl` is
the configured RAG endpoint. -/
structure Env where
  ragHttp : Except String HttpResp
  groqGen : Except String (String × Bool)
  groqHealth : Except String PyObj
  logAction : Except String Unit
  freshId : String
  now : String
  apiUrl : String

/-- `RAGClient.query`: posts to the RAG API; on HTTP 200 parses and
transforms the payload; any raised exception (transport, `.json()`, or a
transform error) and any non-200 status fall back — the method itself never
raises. -/
def ragQuery (env : Env) (query : String) (top_k : ℕ) : RagResponse :=
  match env.ragHttp with
  | .error _ => createFallbackResponse query top_k
  | .ok r =>
      if r.status = 200 then
        match r.jsonBody with
        | .error _ => createFallbackResponse query top_k
        | .ok body =>
            match transformResponse body query with
            | .ok resp => resp
            | .error _ => createFallbackResponse query top_k
      else createFallbackResponse query top_k

/-- `RAGClient.health_check`: issues `query("test", top_k=1)` (which never
raises, so the method's own `except` branch is unreachable) and reports
`status` "healthy" iff the inner status is 200.  Note the returned dict has
no "available" key. -/
def ragHealthCheck (env : Env) : PyObj :=
  let t := ragQuery env "test" 1
  [("status", JVal.str (if t.status = 200 then "healthy" else "unhealthy")),
   ("response_time", JVal.str "ok"),
   ("api_url", JVal.str env.apiUrl)]

/-! ## EduMentorAgent (`agents/edumentor_agent.py`) -/

/-- One entry of the `sources` list built by
`EduMentorAgent._get_knowledge_context`: a 200-character content preview plus
the chunk's `source`, `score`, `document_id` and `folder`. -/
structure SourceInfo where
  content : String
  source : String
  score : ℚ
  document_id : String
  folder : String

/-- The `rag_data` block of the success envelope. -/
structure RagData where
  total_sources : ℕ
  method : String
  knowledge_context_length : ℕ
  has_groq_answer : Bool

/-- The `metadata` block of the success envelope. -/
structure EnvMeta where
  educational_keywords : List String
  guidance_type : String
  enhancement_method : String

/-- The envelope dictionary returned by `EduMentorAgent.process_query`.
Fields present only in the success envelope (resp. only in the error
envelope) are `Option`s, with `none` meaning the key is absent. -/
structure Envelope where
  response : String
  query_id : String
  query : String
  agent : String
  persona : Option String
  knowledge_context_used : Option Bool
  groq_enhanced : Option Bool
  sources : Option (List SourceInfo)
  rag_data : Option RagData
  timestamp : String
  status : String
  error : Option String
  metadata : Option EnvMeta

/-- The fixed keyword list set up in `EduMentorAgent.__init__`. -/
def educationalKeywords : List String :=
  ["learn", "teach", "explain", "understand", "study", "education",
   "concept", "theory", "practice", "example", "exercise", "assessment",
   "knowledge", "skill", "competency", "curriculum", "pedagogy"]

/-- The query framing applied before calling the RAG client. -/
def enhancedQuery (query : String) : String :=
  "Educational learning guidance: " ++ query

/-- The loop body of `_get_knowledge_context` over the top results: each
result is a transformed chunk (always a dict containing "content" in this
embedding, so the `isinstance`/membership guard always passes); the full
content string is collected for the joined context and a 200-character
preview (`result["content"][:200] + "..."`) for `sources`.  Slicing a
non-string content (or concatenating the slice with a string) raises, which
the caller's `except` turns into `("", [])`. -/
def buildCtxSources : List TChunk → Except String (List String × List SourceInfo)
  | [] => .ok ([], [])
  | c :: rest =>
      match c.content with
      | .str s =>
          match buildCtxSources rest with
          | .error e => .error e
          | .ok p =>
              .ok (s :: p.1,
                   ⟨pySlice s 200 ++ "...", c.source, c.score, c.document_id, c.folder⟩ :: p.2)
      | _ => .error "TypeError: can only concatenate str"

/-- `EduMentorAgent._get_knowledge_context`: query the RAG client with the
framed query and `top_k=5`; on status 200 with a non-empty result list, join
the top 3 contents with spaces and collect up to 3 source previews; on any
other outcome, or any exception inside the loop, return `("", [])`. -/
def getKnowledgeContext (env : Env) (query : String) : String × List SourceInfo :=
  let r := ragQuery env (enhancedQuery query) 5
  if r.status == 200 && !r.response.isEmpty then
    match buildCtxSources (r.response.take 3) with
    | .ok p => (String.intercalate " " p.1, p.2)
    | .error _ => ("", [])
  else ("", [])

/-- `EduMentorAgent._fallback_response`: the deterministic completion
fallback template. -/
def fallbackResponse (query kc : String) : String :=
  let base := "As your educational mentor, I'm here to help you understand '" ++ query ++ "'. "
  let base2 :=
    if kc ≠ "" then
      base ++ "Based on educational principles: " ++ pySlice kc 500 ++ "..."
    else
      base ++ "Learning is a journey of discovery. Let's break this down step by step."
  base2 ++ "\n\nRemember, understanding comes from consistent practice and asking questions. Keep exploring!"

/-- `EduMentorAgent._enhance_with_groq`: on a raised exception, or a
completion that did not succeed or returned an empty (falsy) text, substitute
the fallback template and report `groq_used = false`. -/
def enhanceWithGroq (env : Env) (query kc : String) : String × Bool :=
  match env.groqGen with
  | .error _ => (fallbackResponse query kc, false)
  | .ok rs =>
      if rs.2 && !rs.1.isEmpty then (rs.1, true)
      else (fallbackResponse query kc, false)

/-- `task_id = task_id or str(uuid.uuid4())` (Python `or`: `None` and the
empty string are falsy). -/
def resolveTaskId (task_id : Option String) (fresh : String) : String :=
  match task_id with
  | some t => if t = "" then fresh else t
  | none => fresh

/-- The generic apology text of the error envelope. -/
def apologyText : String :=
  "I apologize, but I'm experiencing difficulties providing educational guidance at this moment. Please try again later."

/-- The error envelope built in `process_query`'s `except` branch. -/
def mkErrorEnvelope (query tid now msg : String) : Envelope :=
  ⟨apologyText, tid, query, "EduMentorAgent", none, none, none, none, none,
   now, "error", some msg, none⟩

/-- `EduMentorAgent.process_query`.  Steps 1 and 2 (`_get_knowledge_context`,
`_enhance_with_groq`) catch their own exceptions and are total; the RL
action-log call at step 3 is the one call inside the `try` block that can
raise, and a raise there reaches the top-level `except`, which returns the
error envelope.  The environment stands for the external effects of one
call. -/
def processQuery (env : Env) (query : String) (task_id : Option String) : Envelope :=
  let tid := resolveTaskId task_id env.freshId
  let kcs := getKnowledgeContext env query
  let er := enhanceWithGroq env query kcs.1
  match env.logAction with
  | .error e => mkErrorEnvelope query tid env.now e
  | .ok _ =>
      ⟨er.1, tid, query, "EduMentorAgent", some "educational_mentor",
       some (decide (kcs.1 ≠ "")), some er.2, some kcs.2,
       some ⟨kcs.2.length, "rag_api_enhanced", kcs.1.length, er.2⟩,
       env.now, "success", none,
       some ⟨educationalKeywords.filter (fun kw => pyIn kw (pyLower query)),
             "educational_mentoring",
             if er.2 then "groq" else "fallback"⟩⟩

/-- The health report dict of `EduMentorAgent.health_check`.  The two
availability fields store whatever `probe.get("available", False)` returned
(a `JVal`, later tested for truthiness). -/
structure HealthReport where
  agent : String
  status : String
  rag_api_available : JVal
  groq_api_available : JVal
  timestamp : String

/-- `EduMentorAgent.health_check`: asks each upstream client's own
`health_check` for an "available" flag (defaulting to `False`), treats any
probe exception as unavailable, and derives the overall status: both
unavailable means "degraded", exactly one means "partial", otherwise the
initial "healthy" stands.  The RAG probe is `ragHealthCheck` (total, never
raises); the Groq probe is external and may raise.  (The source calls
`groq_client.health_check()` twice and uses the second result; with the
deterministic per-call environment both calls yield the same value.) -/
def agentHealthCheck (env : Env) : HealthReport :=
  let ragAvail : JVal := objGetD (ragHealthCheck env) "available" (.bool false)
  let groqAvail : JVal :=
    match env.groqHealth with
    | .error _ => .bool false
    | .ok d => objGetD d "available" (.bool false)
  let status :=
    if !pyTruthy ragAvail && !pyTruthy groqAvail then "degraded"
    else if !pyTruthy ragAvail || !pyTruthy groqAvail then "partial"
    else "healthy"
  ⟨"EduMentorAgent", status, ragAvail, groqAvail, env.now⟩

/-! ## VaaniClient (`utils/vaani_client.py`)

The client's mutable `self.token` is threaded explicitly (`none` models the
Python `None`).  Each multi-step operation makes up to three HTTP requests
(login, `content/create`, the operation-specific endpoint); the environment
fixes one outcome per endpoint, and every operation also returns the trace
of endpoints it actually hit. -/

/-- An endpoint hit recorded in an operation's trace. -/
inductive VCall where
  | auth
  | create
  | second (endpoint : String)
deriving DecidableEq

/-- Environment for one VaaniClient operation: outcomes of the login call,
the `content/create` call, and the operation-specific second call. -/
structure VaaniEnv where
  authHttp : Except String HttpResp
  createHttp : Except String HttpResp
  secondHttp : Except String HttpResp

/-- JSON `null` fetched by `dict.get` becomes the Python `None`. -/
def pyNoneIfNull : Option JVal → Option JVal
  | some .null => none
  | o => o

/-- Python truthiness of an optional value (`None` is falsy). -/
def optTruthy : Option JVal → Bool
  | none => false
  | some v => pyTruthy v

/-- `VaaniClient._authenticate`: on HTTP 200 store
`response.json().get("access_token")` as the token; on a non-200 status, a
raised exception, or an unparseable body the token becomes `None`. -/
def vaaniAuthenticate (env : VaaniEnv) : Option JVal :=
  match env.authHttp with
  | .error _ => none
  | .ok r =>
      if r.status = 200 then
        match r.jsonBody with
        | .error _ => none
        | .ok body => pyNoneIfNull (olookup body "access_token")
      else none

/-- `VaaniClient._ensure_authenticated`: re-authenticate (once) exactly when
the held token is falsy. -/
def ensureAuthenticated (tok : Option JVal) (env : VaaniEnv) :
    Option JVal × List VCall :=
  if optTruthy tok then (tok, []) else (vaaniAuthenticate env, [VCall.auth])

/-- `VaaniClient._create_content_first`: returns
`response.json().get("content_id")` on HTTP 200, and `None` on a non-200
status, a raised exception, or an unparseable body. -/
def createContentFirst (env : VaaniEnv) : Option JVal × List VCall :=
  let cid :=
    match env.createHttp with
    | .error _ => none
    | .ok r =>
        if r.status = 200 then
          match r.jsonBody with
          | .error _ => none
          | .ok body => pyNoneIfNull (olookup body "content_id")
        else none
  (cid, [VCall.create])

/-- The second request of a multi-step operation: HTTP 200 returns the parsed
body; a non-200 status yields the operation's fixed failure message; a raised
exception (including a `.json()` failure) yields the exception's message —
always as an `{"error": ...}` dictionary, never a raise. -/
def vaaniSecondCall (env : VaaniEnv) (endpoint failMsg : String) :
    PyObj × List VCall :=
  match env.secondHttp with
  | .error e => ([("error", JVal.str e)], [VCall.second endpoint])
  | .ok r =>
      if r.status = 200 then
        match r.jsonBody with
        | .error e => ([("error", JVal.str e)], [VCall.second endpoint])
        | .ok body => (body, [VCall.second endpoint])
      else ([("error", JVal.str failMsg)], [VCall.second endpoint])

/-- Common shape of the four multi-step operations: ensure a token, create
content, and only if a truthy `content_id` came back issue the
operation-specific call; otherwise report `{"error": "Failed to create
content"}` without hitting the second endpoint.  Returns (result dict,
updated token, trace). -/
def vaaniTwoStep (tok : Option JVal) (env : VaaniEnv) (endpoint failMsg : String) :
    PyObj × Option JVal × List VCall :=
  let a := ensureAuthenticated tok env
  let c := createContentFirst env
  if optTruthy c.1 then
    let s := vaaniSecondCall env endpoint failMsg
    (s.1, a.1, a.2 ++ c.2 ++ s.2)
  else
    ([("error", JVal.str "Failed to create content")], a.1, a.2 ++ c.2)

/-- `VaaniClient.generate_content` (the platform/tone payload goes to the
external service and does not influence the control flow modelled here). -/
def generate_content (tok : Option JVal) (env : VaaniEnv) :
    PyObj × Option JVal × List VCall :=
  vaaniTwoStep tok env "agents/generate-content" "Content generation failed"

/-- `VaaniClient.translate_content`. -/
def translate_content (tok : Option JVal) (env : VaaniEnv) :
    PyObj × Option JVal × List VCall :=
  vaaniTwoStep tok env "multilingual/translate" "Translation failed"

/-- `VaaniClient.generate_voice`. -/
def generate_voice (tok : Option JVal) (env : VaaniEnv) :
    PyObj × Option JVal × List VCall :=
  vaaniTwoStep tok env "agents/generate-voice" "Voice generation failed"

/-- `VaaniClient.analyze_content_security`. -/
def analyze_content_security (tok : Option JVal) (env : VaaniEnv) :
    PyObj × Option JVal × List VCall :=
  vaaniTwoStep tok env "security/analyze-content" "Security analysis failed"

/-- `env.secondHttp` is a failed call: a raised exception, a non-200 status,
or an unparseable 200 body. -/
def vaaniSecondFailed (env : VaaniEnv) : Prop :=
  (∃ e, env.secondHttp = Except.error e) ∨
  (∃ r, env.secondHttp = Except.ok r ∧
    (r.status ≠ 200 ∨ ∃ e, r.jsonBody = Except.error e))

/-- A result dictionary of the shape `{"error": <string>}`. -/
def isErrorDict (p : PyObj) : Prop :=
  ∃ m, p = [("error", JVal.str m)]

/-- Number of login calls in a trace. -/
def authCount (tr : List VCall) : ℕ :=
  (tr.filter (fun c => match c with | VCall.auth => true | _ => false)).length

/-- Whether a trace hits any operation-specific second endpoint. -/
def hitsSecond (tr : List VCall) : Bool :=
  tr.any (fun c => match c with | VCall.second _ => true | _ => false)

/-- The behaviour claimed of each multi-step VaaniClient operation, as a
property of one operation's result `(dict, token, trace)`. -/
def vaaniOpSpec (env : VaaniEnv) (tok : Option JVal)
    (op : PyObj × Option JVal × List VCall) : Prop :=
  (optTruthy tok = false →
    authCount op.2.2 = 1 ∧ op.2.2.head? = some VCall.auth) ∧
  (optTruthy (createContentFirst env).1 = false →
    op.1 = [("error", JVal.str "Failed to create content")] ∧
    hitsSecond op.2.2 = false) ∧
  (optTruthy (createContentFirst env).1 = true → vaaniSecondFailed env →
    isErrorDict op.1)

/-! ## Concrete inputs used by counterexamples and witnesses -/

/-- The spec's scenario payload: one chunk `{content: "Dharma is duty",
file: "veda1.txt", score: 0.9, index: 0}` with an empty `groq_answer`. -/
def scenPayload : PyObj :=
  [("retrieved_chunks", JVal.arr [JVal.obj
     [("content", JVal.str "Dharma is duty"), ("file", JVal.str "veda1.txt"),
      ("score", JVal.num (0.9 : ℚ)), ("index", JVal.int 0)]]),
   ("groq_answer", JVal.str "")]

/-- The expected normalization of `scenPayload`. -/
def scenExpected : RagResponse :=
  ⟨[⟨JVal.str "Dharma is duty", "rag:veda1.txt", (0.9 : ℚ),
     [("file", JVal.str "veda1.txt"), ("index", JVal.int 0),
      ("rag_source", JVal.str "external_api")],
     "veda1.txt_0", "rag_api"⟩],
   JVal.str "", "rag_api", 1, 200, JVal.str "", "veda query",
   [("tags", JVal.arr [JVal.str "semantic_search", JVal.str "rag_api",
                       JVal.str "groq_enhanced"]),
    ("retriever", JVal.str "external_rag_api"),
    ("total_results", JVal.int 1),
    ("has_groq_answer", JVal.bool false)]⟩

/-- A payload whose only chunk carries a score that `float(...)` cannot
parse. -/
def badScorePayload : PyObj :=
  [("retrieved_chunks", JVal.arr [JVal.obj
     [("content", JVal.str "x"), ("score", JVal.str "not-a-number")]])]

/-- Environment where every upstream works but the RL action log raises. -/
def envLogBoom : Env :=
  ⟨Except.ok ⟨200, Except.ok scenPayload⟩,
   Except.ok ("Great explanation.", true),
   Except.ok [], Except.error "disk full",
   "fresh-id", "2026-01-01T00:00:00", "http://rag"⟩

/-- Environment where the RAG transport raises (e.g. a timeout), the Groq
call raises, and the action log succeeds. -/
def envAllFail : Env :=
  ⟨Except.error "timeout", Except.error "groq down",
   Except.error "groq down", Except.ok (),
   "fresh-id", "2026-01-01T00:00:00", "http://rag"⟩

/-- Environment with the retrieval upstream reachable (HTTP 200 with a valid
body) and the completion upstream's health probe raising. -/
def envC8 : Env :=
  ⟨Except.ok ⟨200, Except.ok [("retrieved_chunks", JVal.arr []),
                              ("groq_answer", JVal.str "")]⟩,
   Except.ok ("unused", true), Except.error "connection refused",
   Except.ok (), "fresh-id", "2026-01-01T00:00:00", "http://rag"⟩

/-- Vaani environment: login succeeds, the second call fails with HTTP 500;
`content/create` succeeds with id "c1". -/
def venvSecondFailW : VaaniEnv :=
  ⟨Except.ok ⟨200, Except.ok [("access_token", JVal.str "tok")]⟩,
   Except.ok ⟨200, Except.ok [("content_id", JVal.str "c1")]⟩,
   Except.ok ⟨500, Except.ok []⟩⟩

/-! ## Helper lemmas -/

theorem append_ne_empty_right (a b : String) (hb : b ≠ "") : a ++ b ≠ "" := by
  intro h
  have hd : a.data ++ b.data = [] := by
    have h2 := congrArg String.data h
    rwa [String.data_append] at h2
  rcases List.append_eq_nil.mp hd with ⟨_, h2⟩
  exact hb (String.ext (by rw [h2]))

theorem fallbackResponse_ne_empty (q kc : String) : fallbackResponse q kc ≠ "" := by
  unfold fallbackResponse
  exact append_ne_empty_right _ _ (by decide)

theorem ne_empty_of_isEmpty_false (s : String) (h : s.isEmpty = false) : s ≠ "" := by
  intro he
  rw [he] at h
  exact absurd h (by decide)

theorem enhanceWithGroq_fst_ne_empty (env : Env) (q kc : String) :
    (enhanceWithGroq env q kc).1 ≠ "" := by
  cases hg : env.groqGen with
  | error e =>
      simp only [enhanceWithGroq, hg]
      exact fallbackResponse_ne_empty q kc
  | ok rs =>
      simp only [enhanceWithGroq, hg]
      split
      · rename_i hcond
        simp at hcond
        exact ne_empty_of_isEmpty_false rs.1 hcond.2
      · exact fallbackResponse_ne_empty q kc

/-! ## C1 -/

/-- C1: for every environment of external effects, every query string and
every task id, `EduMentorAgent.process_query` returns a well-formed envelope
(it is a total function into `Envelope`, so no exception reaches the caller)
whose `response` field is never empty/absent; if an exception escapes an
internal step (the action-log call, the one call under the `try` that can
raise), the envelope has `status = "error"`, the generic apologetic response
text, and the exception's message in the `error` field; otherwise the status
is "success". -/
theorem C1_process_query_total_envelope (env : Env) (query : String)
    (task_id : Option String) :
    (processQuery env query task_id).response ≠ "" ∧
    (∀ m, env.logAction = Except.error m →
      (processQuery env query task_id).status = "error" ∧
      (processQuery env query task_id).response = apologyText ∧
      (processQuery env query task_id).error = some m) ∧
    (∀ u, env.logAction = Except.ok u →
      (processQuery env query task_id).status = "success") := by
  refine ⟨?_, ?_, ?_⟩
  · cases hl : env.logAction with
    | error e =>
        simp [processQuery, hl, mkErrorEnvelope, apologyText]
    | ok u =>
        simp only [processQuery, hl]
        exact enhanceWithGroq_fst_ne_empty env query _
  · intro m hm
    simp [processQuery, hm, mkErrorEnvelope]
  · intro u hu
    simp [processQuery, hu]

/-- Witness for C1 at a concrete failing-upstream environment. -/
theorem C1_witness :
    (processQuery envAllFail "what is dharma" none).status = "success" ∧
    (processQuery envLogBoom "what is dharma" none).status = "error" := by
  constructor
  · exact (C1_process_query_total_envelope envAllFail "what is dharma" none).2.2 () rfl
  · exact ((C1_process_query_total_envelope envLogBoom "what is dharma" none).2.1
      "disk full" rfl).1

/-! ## C2 -/

/-- C2 counterexample: the claim says an unparseable score "defaults to 0.0
rather than aborting normalization", but `_transform_response` evaluates
`float(chunk.get("score", 0.0))`, which raises `ValueError` on a non-numeric
string — normalization aborts. -/
theorem C2_transform_raises_on_unparseable_score :
    transformResponse badScorePayload "q" =
      Except.error "ValueError: could not convert string to float: not-a-number" := rfl

/-- C2 (amended): missing optional fields are defaulted (`content` to `""`,
`file` to `"unknown"` inside `source`/`document_id`, a missing score to 0.0)
and a chunk's normalization succeeds exactly when `float` accepts the score
value; a present but unparseable score raises instead of defaulting. -/
theorem C2_transform_defaults (kvs : PyObj) :
    (olookup kvs "score" = none →
      transformChunk (JVal.obj kvs) =
        Except.ok ⟨objGetD kvs "content" (JVal.str ""),
          "rag:" ++ pyStr (objGetD kvs "file" (JVal.str "unknown")), 0,
          [("file", objGetD kvs "file" (JVal.str "")),
           ("index", objGetD kvs "index" (JVal.int 0)),
           ("rag_source", JVal.str "external_api")],
          pyStr (objGetD kvs "file" (JVal.str "unknown")) ++ "_" ++
            pyStr (objGetD kvs "index" (JVal.int 0)),
          "rag_api"⟩) ∧
    (∀ t, transformChunk (JVal.obj kvs) = Except.ok t →
      (olookup kvs "content" = none → t.content = JVal.str "") ∧
      (olookup kvs "file" = none →
        t.source = "rag:unknown" ∧
        t.document_id = "unknown_" ++ pyStr (objGetD kvs "index" (JVal.int 0)))) ∧
    ((∃ e, transformChunk (JVal.obj kvs) = Except.error e) ↔
      (∃ e, pyFloat (objGetD kvs "score" (JVal.num 0)) = Except.error e)) := by
  refine ⟨?_, ?_, ?_⟩
  · intro h
    simp [transformChunk, objGetD, h, pyFloat]
  · intro t ht
    cases hf : pyFloat (objGetD kvs "score" (JVal.num 0)) with
    | error e =>
        simp only [transformChunk, hf] at ht
        exact Except.noConfusion ht
    | ok sc =>
        simp only [transformChunk, hf, Except.ok.injEq] at ht
        subst ht
        refine ⟨?_, ?_⟩
        · intro hc; simp [objGetD, hc]
        · intro hfile
          constructor
          · show "rag:" ++ pyStr (objGetD kvs "file" (JVal.str "unknown")) = "rag:unknown"
            rw [show objGetD kvs "file" (JVal.str "unknown") = JVal.str "unknown" by
              simp [objGetD, hfile]]
            decide
          · show pyStr (objGetD kvs "file" (JVal.str "unknown")) ++ "_" ++
                pyStr (objGetD kvs "index" (JVal.int 0)) =
                "unknown_" ++ pyStr (objGetD kvs "index" (JVal.int 0))
            rw [show objGetD kvs "file" (JVal.str "unknown") = JVal.str "unknown" by
              simp [objGetD, hfile]]
            rw [String.append_assoc]
            rfl
  · cases hf : pyFloat (objGetD kvs "score" (JVal.num 0)) with
    | error e =>
        constructor
        · intro _; exact ⟨e, rfl⟩
        · intro _; exact ⟨e, by simp [transformChunk, hf]⟩
    | ok sc =>
        constructor
        · rintro ⟨e, he⟩
          simp [transformChunk, hf] at he
        · rintro ⟨e, he⟩
          exact Except.noConfusion he

/-- Witness for C2's amended theorem at a concrete chunk with a missing
score and a missing file. -/
theorem C2_witness :
    transformChunk (JVal.obj [("content", JVal.str "Dharma is duty")]) =
      Except.ok ⟨JVal.str "Dharma is duty", "rag:unknown", 0,
        [("file", JVal.str ""), ("index", JVal.int 0),
         ("rag_source", JVal.str "external_api")],
        "unknown_0", "rag_api"⟩ :=
  (C2_transform_defaults [("content", JVal.str "Dharma is duty")]).1 rfl

/-! ## C3 -/

/-- C3 counterexample: with every upstream succeeding but the RL action-log
call raising, `process_query` does NOT return the success envelope built from
the computed completion text ("Great explanation."): `log_action` is called
inside the top-level `try` with no inner handler, so the caller gets the
error envelope. -/
theorem C3_log_failure_aborts :
    (processQuery envLogBoom "what is dharma" (some "t1")).status = "error" ∧
    (processQuery envLogBoom "what is dharma" (some "t1")).response = apologyText ∧
    (processQuery envLogBoom "what is dharma" (some "t1")).response ≠
      "Great explanation." :=
  ⟨rfl, rfl, by decide⟩

/-- C3 (amended): a failure raised by `rl_context.log_action` is caught only
by `process_query`'s top-level handler: the caller receives the error
envelope carrying the exception message (the already-computed context and
completion are discarded); the exception still does not propagate. -/
theorem C3_log_failure_error_envelope (env : Env) (q : String) (t : Option String)
    (m : String) (h : env.logAction = Except.error m) :
    processQuery env q t =
      mkErrorEnvelope q (resolveTaskId t env.freshId) env.now m := by
  simp only [processQuery, h]

/-- Witness for C3's amended theorem at the concrete environment. -/
theorem C3_witness :
    processQuery envLogBoom "what is dharma" none =
      mkErrorEnvelope "what is dharma" "fresh-id" "2026-01-01T00:00:00" "disk full" :=
  C3_log_failure_error_envelope envLogBoom "what is dharma" none "disk full" rfl

/-! ## C4 -/

theorem getKnowledgeContext_of_fail (env : Env) (q : String)
    (h : (ragQuery env (enhancedQuery q) 5).status ≠ 200 ∨
         (ragQuery env (enhancedQuery q) 5).response = []) :
    getKnowledgeContext env q = ("", []) := by
  have hc : ((ragQuery env (enhancedQuery q) 5).status == 200 &&
             !(ragQuery env (enhancedQuery q) 5).response.isEmpty) = false := by
    rcases h with h | h
    · have h1 : ((ragQuery env (enhancedQuery q) 5).status == 200) = false :=
        beq_eq_false_iff_ne.mpr h
      simp [h1]
    · have h1 : (ragQuery env (enhancedQuery q) 5).response.isEmpty = true := by
        rw [h]; rfl
      simp [h1]
  simp only [getKnowledgeContext, hc, Bool.false_eq_true, if_false]

/-- C4: if the retrieval gateway call fails (the HTTP call raises — e.g. a
timeout —, the service answers non-200, or the payload is unusable: all of
which surface to the orchestrator as a `RAGClient.query` result with a
non-200 status or an empty fragment list), and the action log succeeds, the
orchestrator still returns a `status="success"` envelope with
`knowledge_context_used=false`, empty prompt context, and an empty sources
list: retrieval failure is non-fatal and the completion step still runs. -/
theorem C4_retrieval_failure_nonfatal (env : Env) (q : String) (t : Option String)
    (hrag : (ragQuery env (enhancedQuery q) 5).status ≠ 200 ∨
            (ragQuery env (enhancedQuery q) 5).response = [])
    (hlog : env.logAction = Except.ok ()) :
    (processQuery env q t).status = "success" ∧
    (processQuery env q t).knowledge_context_used = some false ∧
    (processQuery env q t).sources = some [] ∧
    getKnowledgeContext env q = ("", []) ∧
    (processQuery env q t).response = (enhanceWithGroq env q "").1 ∧
    (processQuery env q t).rag_data =
      some ⟨0, "rag_api_enhanced", 0, (enhanceWithGroq env q "").2⟩ := by
  have hkc := getKnowledgeContext_of_fail env q hrag
  refine ⟨?_, ?_, ?_, hkc, ?_, ?_⟩ <;>
    simp [processQuery, hlog, hkc]

/-- Witness for C4: the RAG transport raises, yet the envelope is a success
envelope with no knowledge context. -/
theorem C4_witness :
    (processQuery envAllFail "what is dharma" none).status = "success" ∧
    (processQuery envAllFail "what is dharma" none).knowledge_context_used =
      some false ∧
    (processQuery envAllFail "what is dharma" none).sources = some [] := by
  have h := C4_retrieval_failure_nonfatal envAllFail "what is dharma" none
    (Or.inl (by decide)) rfl
  exact ⟨h.1, h.2.1, h.2.2.1⟩

/-! ## C5 -/

theorem enhanceWithGroq_fallback (env : Env) (q kc : String)
    (h : (∃ m, env.groqGen = Except.error m) ∨
         (∃ rs, env.groqGen = Except.ok rs ∧ rs.2 = false)) :
    enhanceWithGroq env q kc = (fallbackResponse q kc, false) := by
  rcases h with ⟨m, hm⟩ | ⟨rs, hrs, h2⟩
  · simp [enhanceWithGroq, hm]
  · simp [enhanceWithGroq, hrs, h2]

/-- C5: whenever the completion gateway fails (raises) or signals
`succeeded=false`, the envelope has `groq_enhanced=false` and its response
text is exactly the deterministic fallback template: the fixed opening
embedding the original query, then either a 500-character-capped prefix of
the knowledge context or the fixed no-context sentence, then the fixed
encouragement suffix; `_fallback_response` is a pure function of
`(query, knowledge_context)`, so identical inputs yield the identical
string. -/
theorem C5_completion_fallback (env : Env) (q : String) (t : Option String)
    (hgroq : (∃ m, env.groqGen = Except.error m) ∨
             (∃ rs, env.groqGen = Except.ok rs ∧ rs.2 = false))
    (hlog : env.logAction = Except.ok ()) :
    (processQuery env q t).groq_enhanced = some false ∧
    (processQuery env q t).response =
      fallbackResponse q (getKnowledgeContext env q).1 ∧
    (∀ query kc : String,
      fallbackResponse query kc =
        "As your educational mentor, I'm here to help you understand '" ++
          query ++ "'. " ++
        (if kc ≠ "" then
           "Based on educational principles: " ++ pySlice kc 500 ++ "..."
         else
           "Learning is a journey of discovery. Let's break this down step by step.") ++
        "\n\nRemember, understanding comes from consistent practice and asking questions. Keep exploring!") ∧
    (pySlice (getKnowledgeContext env q).1 500).length ≤ 500 := by
  have hfb := enhanceWithGroq_fallback env q (getKnowledgeContext env q).1 hgroq
  refine ⟨?_, ?_, ?_, ?_⟩
  · simp [processQuery, hlog, hfb]
  · simp [processQuery, hlog, hfb]
  · intro query kc
    simp only [fallbackResponse]
    by_cases hkc : kc = ""
    · simp only [hkc]
      simp [String.append_assoc]
    · simp only [if_pos (show kc ≠ "" from hkc)]
      simp [String.append_assoc]
      rw [show ("'. Based on educational principles: " : String) =
            "'. " ++ "Based on educational principles: " from rfl,
          String.append_assoc]
  · show (((getKnowledgeContext env q).1.data.take 500).length : ℕ) ≤ 500
    exact List.length_take_le 500 _

/-- Witness for C5: Groq raises, and the envelope text is the no-context
fallback template for the literal query. -/
theorem C5_witness :
    (processQuery envAllFail "what is dharma" none).groq_enhanced = some false ∧
    (processQuery envAllFail "what is dharma" none).response =
      fallbackResponse "what is dharma" "" := by
  have h := C5_completion_fallback envAllFail "what is dharma" none
    (Or.inl ⟨"groq down", rfl⟩) rfl
  exact ⟨h.1, h.2.1⟩

/-! ## C6 -/

/-- C6: if the retrieval HTTP call raises (which is how a timeout surfaces)
or returns a non-200 status, `RAGClient.query` returns the fallback
`RetrievalResult`: exactly one fragment, whose content is the apologetic
template embedding the literal query, with `source="fallback:error"`,
`score=0.1`, `status=503`, and tags `["fallback", "error"]`. -/
theorem C6_rag_query_fallback (env : Env) (q : String) (k : ℕ)
    (h : (∃ m, env.ragHttp = Except.error m) ∨
         (∃ r, env.ragHttp = Except.ok r ∧ r.status ≠ 200)) :
    ragQuery env q k = createFallbackResponse q k ∧
    (ragQuery env q k).response = [fallbackChunk q] ∧
    (fallbackChunk q).content =
      JVal.str ("I apologize, but I'm currently unable to access the knowledge base. Your query was: '" ++ q ++ "'") ∧
    (fallbackChunk q).source = "fallback:error" ∧
    (fallbackChunk q).score = 1 / 10 ∧
    (ragQuery env q k).status = 503 ∧
    olookup (ragQuery env q k).metadata "tags" =
      some (JVal.arr [JVal.str "fallback", JVal.str "error"]) := by
  have hq : ragQuery env q k = createFallbackResponse q k := by
    rcases h with ⟨m, hm⟩ | ⟨r, hr, hs⟩
    · simp [ragQuery, hm]
    · simp [ragQuery, hr, if_neg hs]
  refine ⟨hq, ?_, rfl, rfl, rfl, ?_, ?_⟩ <;> rw [hq] <;> rfl

/-- Witness for C6 at a raising (timed-out) transport. -/
theorem C6_witness :
    (ragQuery envAllFail "what is dharma" 5).status = 503 ∧
    (ragQuery envAllFail "what is dharma" 5).response =
      [fallbackChunk "what is dharma"] := by
  have h := C6_rag_query_fallback envAllFail "what is dharma" 5
    (Or.inl ⟨"timeout", rfl⟩)
  exact ⟨h.2.2.2.2.2.1, h.2.1⟩

/-! ## C7 -/

theorem mapExcept_ok_spec (f : α → Except ε β) :
    ∀ (xs : List α) (ys : List β), mapExcept f xs = Except.ok ys →
      ys.length = xs.length ∧
      ∀ i (h1 : i < xs.length) (h2 : i < ys.length),
        f (xs.get ⟨i, h1⟩) = Except.ok (ys.get ⟨i, h2⟩) := by
  intro xs
  induction xs with
  | nil =>
      intro ys h
      simp only [mapExcept, Except.ok.injEq] at h
      subst h
      exact ⟨rfl, fun i h1 _ => absurd h1 (Nat.not_lt_zero i)⟩
  | cons x xs ih =>
      intro ys h
      simp only [mapExcept] at h
      cases hx : f x with
      | error e => rw [hx] at h; exact Except.noConfusion h
      | ok y =>
          rw [hx] at h
          cases hrest : mapExcept f xs with
          | error e => rw [hrest] at h; exact Except.noConfusion h
          | ok ys' =>
              rw [hrest] at h
              have hy : y :: ys' = ys := by
                simpa using h
              subst hy
              obtain ⟨hl, hg⟩ := ih ys' hrest
              refine ⟨by simp [hl], ?_⟩
              intro i h1 h2
              cases i with
              | zero => exact hx
              | succ n =>
                  exact hg n (Nat.lt_of_succ_lt_succ h1) (Nat.lt_of_succ_lt_succ h2)

/-- C7: normalization maps each retrieval chunk by the rule
`source = "rag:" + file` (with `file` defaulting to "unknown" when absent),
`documentId = file + "_" + index`, and the score through `float(...)`;
fragments preserve the upstream order (the i-th fragment of the output is
the transform of the i-th chunk); and on the spec's concrete scenario
payload the normalized result is exactly `scenExpected` — one fragment with
`source="rag:veda1.txt"`, `documentId="veda1.txt_0"`, `score=0.9` — with the
`has_groq_answer` metadata flag false because `groq_answer` is empty. -/
theorem C7_transform_mapping :
    (∀ kvs t, transformChunk (JVal.obj kvs) = Except.ok t →
      t.source = "rag:" ++ pyStr (objGetD kvs "file" (JVal.str "unknown")) ∧
      t.document_id = pyStr (objGetD kvs "file" (JVal.str "unknown")) ++ "_" ++
        pyStr (objGetD kvs "index" (JVal.int 0)) ∧
      pyFloat (objGetD kvs "score" (JVal.num 0)) = Except.ok t.score ∧
      (olookup kvs "file" = none → t.source = "rag:unknown")) ∧
    (∀ (api : PyObj) q chunks r,
      objGetD api "retrieved_chunks" (JVal.arr []) = JVal.arr chunks →
      transformResponse api q = Except.ok r →
      r.response.length = chunks.length ∧
      ∀ i (h1 : i < chunks.length) (h2 : i < r.response.length),
        transformChunk (chunks.get ⟨i, h1⟩) = Except.ok (r.response.get ⟨i, h2⟩)) ∧
    transformResponse scenPayload "veda query" = Except.ok scenExpected ∧
    olookup scenExpected.metadata "has_groq_answer" = some (JVal.bool false) := by
  refine ⟨?_, ?_, rfl, rfl⟩
  · intro kvs t ht
    cases hf : pyFloat (objGetD kvs "score" (JVal.num 0)) with
    | error e =>
        simp only [transformChunk, hf] at ht
        exact Except.noConfusion ht
    | ok sc =>
        simp only [transformChunk, hf, Except.ok.injEq] at ht
        subst ht
        refine ⟨rfl, rfl, rfl, ?_⟩
        intro hfile
        show "rag:" ++ pyStr (objGetD kvs "file" (JVal.str "unknown")) = "rag:unknown"
        rw [show objGetD kvs "file" (JVal.str "unknown") = JVal.str "unknown" by
          simp [objGetD, hfile]]
        decide
  · intro api q chunks r hrc htr
    simp only [transformResponse, hrc] at htr
    cases hm : mapExcept transformChunk chunks with
    | error e => rw [hm] at htr; exact Except.noConfusion htr
    | ok ts =>
        rw [hm] at htr
        have hr : r.response = ts := by
          have := congrArg RagResponse.response (by simpa using htr.symm)
          simpa using this
        obtain ⟨hl, hg⟩ := mapExcept_ok_spec transformChunk chunks ts hm
        constructor
        · rw [hr, hl]
        · intro i h1 h2
          have h2' : i < ts.length := by rw [← hr]; exact h2
          have := hg i h1 h2'
          rw [this]
          congr 1
          exact (List.get_of_eq hr ⟨i, h2⟩).symm ▸ rfl

/-- Witness for C7: applying the mapping rule at the scenario chunk. -/
theorem C7_witness :
    transformChunk (JVal.obj
      [("content", JVal.str "Dharma is duty"), ("file", JVal.str "veda1.txt"),
       ("score", JVal.num (0.9 : ℚ)), ("index", JVal.int 0)]) =
      Except.ok ⟨JVal.str "Dharma is duty", "rag:veda1.txt", (0.9 : ℚ),
        [("file", JVal.str "veda1.txt"), ("index", JVal.int 0),
         ("rag_source", JVal.str "external_api")],
        "veda1.txt_0", "rag_api"⟩ ∧
    "rag:veda1.txt" = "rag:" ++ pyStr (JVal.str "veda1.txt") := by
  refine ⟨rfl, ?_⟩
  have h := (C7_transform_mapping.1 _ _ (rfl :
    transformChunk (JVal.obj
      [("content", JVal.str "Dharma is duty"), ("file", JVal.str "veda1.txt"),
       ("score", JVal.num (0.9 : ℚ)), ("index", JVal.int 0)]) =
      Except.ok ⟨JVal.str "Dharma is duty", "rag:veda1.txt", (0.9 : ℚ),
        [("file", JVal.str "veda1.txt"), ("index", JVal.int 0),
         ("rag_source", JVal.str "external_api")],
        "veda1.txt_0", "rag_api"⟩)).1
  exact h

/-! ## C8 -/

/-- C8 (code bug): `EduMentorAgent.health_check` reads
`rag_health.get("available", False)`, but `RAGClient.health_check` returns a
dict with keys `status`/`response_time`/`api_url` and never an `"available"`
key (last conjunct, for every environment), so the retrieval upstream is
always treated as unavailable.  At the failing input — retrieval reachable
(its own probe reports status "healthy") and the completion probe raising —
the overall status is "degraded", not "partial" as claimed. -/
theorem C8_health_check_key_mismatch :
    olookup (ragHealthCheck envC8) "status" = some (JVal.str "healthy") ∧
    (agentHealthCheck envC8).status = "degraded" ∧
    (agentHealthCheck envC8).status ≠ "partial" ∧
    (∀ env : Env, olookup (ragHealthCheck env) "available" = none) :=
  ⟨rfl, rfl, by decide, fun _ => rfl⟩

/-! ## C9 -/

theorem vaaniTwoStep_spec (tok : Option JVal) (env : VaaniEnv)
    (endpoint failMsg : String) :
    vaaniOpSpec env tok (vaaniTwoStep tok env endpoint failMsg) := by
  have hc2 : (createContentFirst env).2 = [VCall.create] := rfl
  refine ⟨?_, ?_, ?_⟩
  · intro htok
    have ha : ensureAuthenticated tok env = (vaaniAuthenticate env, [VCall.auth]) := by
      simp [ensureAuthenticated, htok]
    by_cases hc : optTruthy (createContentFirst env).1 = true
    · have hsnd : (vaaniSecondCall env endpoint failMsg).2 = [VCall.second endpoint] := by
        cases hS : env.secondHttp with
        | error e => simp [vaaniSecondCall, hS]
        | ok r =>
            by_cases hs : r.status = 200
            · cases hj : r.jsonBody <;> simp [vaaniSecondCall, hS, hs, hj]
            · simp [vaaniSecondCall, hS, hs]
      simp [vaaniTwoStep, ha, hc, hc2, hsnd, authCount, List.filter]
    · simp [vaaniTwoStep, ha, hc, hc2, authCount, List.filter]
  · intro hcid
    constructor
    · simp [vaaniTwoStep, hcid]
    · by_cases htok : optTruthy tok = true <;>
        simp [vaaniTwoStep, hcid, hitsSecond, ensureAuthenticated, htok, hc2]
  · intro hcid hsec
    simp only [vaaniTwoStep, hcid, if_true]
    rcases hsec with ⟨e, he⟩ | ⟨r, hr, hor⟩
    · exact ⟨e, by simp [vaaniSecondCall, he]⟩
    · by_cases hs : r.status = 200
      · rcases hor with h200 | ⟨e, hj⟩
        · exact absurd hs h200
        · exact ⟨e, by simp [vaaniSecondCall, hr, hs, hj]⟩
      · exact ⟨failMsg, by simp [vaaniSecondCall, hr, if_neg hs]⟩

/-- C9: for each of the four multi-step VaaniClient operations: with no
truthy bearer token at call time the trace begins with exactly one login
call; when content creation yields no truthy `content_id` the result is
`{"error": "Failed to create content"}` and the operation-specific endpoint
is never hit; and when the second call fails (raise, non-200, or unparseable
body) the result is an `{"error": <string>}` dictionary rather than a raised
exception. -/
theorem C9_vaani_operations (tok : Option JVal) (env : VaaniEnv) :
    vaaniOpSpec env tok (generate_content tok env) ∧
    vaaniOpSpec env tok (translate_content tok env) ∧
    vaaniOpSpec env tok (generate_voice tok env) ∧
    vaaniOpSpec env tok (analyze_content_security tok env) :=
  ⟨vaaniTwoStep_spec tok env _ _, vaaniTwoStep_spec tok env _ _,
   vaaniTwoStep_spec tok env _ _, vaaniTwoStep_spec tok env _ _⟩

/-- Witness for C9: with no token held and the second call answering 500,
`analyze_content_security` re-authenticates first and surfaces an error
dictionary. -/
theorem C9_witness :
    authCount (analyze_content_security none venvSecondFailW).2.2 = 1 ∧
    (analyze_content_security none venvSecondFailW).2.2.head? =
      some VCall.auth ∧
    isErrorDict (analyze_content_security none venvSecondFailW).1 := by
  have h := C9_vaani_operations none venvSecondFailW
  refine ⟨(h.2.2.2.1 rfl).1, (h.2.2.2.1 rfl).2, ?_⟩
  exact h.2.2.2.2.2 (by decide)
    (Or.inr ⟨⟨500, Except.ok []⟩, rfl, Or.inl (by decide)⟩)

/-! ## C10 -/

/-- C10: in the success envelope, `metadata.educational_keywords` is exactly
the fixed 17-keyword list filtered — in the list's own order, hence a
sublist of it — by case-insensitive substring occurrence in the lowercased
query ("learn" matches inside "unlearned" and inside "LEARNING"); the error
envelope carries no metadata block. -/
theorem C10_educational_keywords (env : Env) (q : String) (t : Option String) :
    (env.logAction = Except.ok () →
      (processQuery env q t).metadata =
        some ⟨educationalKeywords.filter (fun kw => pyIn kw (pyLower q)),
              "educational_mentoring",
              if (enhanceWithGroq env q (getKnowledgeContext env q).1).2
              then "groq" else "fallback"⟩) ∧
    List.Sublist (educationalKeywords.filter (fun kw => pyIn kw (pyLower q)))
      educationalKeywords ∧
    (∀ m, env.logAction = Except.error m →
      (processQuery env q t).metadata = none) ∧
    educationalKeywords.length = 17 ∧
    pyIn "learn" (pyLower "unlearned") = true ∧
    pyIn "learn" (pyLower "I want to LEARN") = true := by
  refine ⟨?_, List.filter_sublist _, ?_, by decide, by decide, by decide⟩
  · intro h
    simp [processQuery, h]
  · intro m h
    simp [processQuery, h, mkErrorEnvelope]

/-- Witness for C10 at a concrete query containing "unlearned" and "TEACH". -/
theorem C10_witness :
    (processQuery envAllFail "How to TEACH the unlearned?" none).metadata =
      some ⟨["learn", "teach"], "educational_mentoring", "fallback"⟩ := by
  have h := (C10_educational_keywords envAllFail "How to TEACH the unlearned?"
    none).1 rfl
  rw [h]
  rfl

end BHL
